import Mathlib

/-!
Shallow embedding of `custom_components/rpi_gpio/hub.py` (class `Hub`):
GPIO chip discovery, the line registry, session (line-request) management,
and edge-event dispatch.  Python dicts are modelled as insertion-ordered
association lists, mutable object state as explicit state passing, and
raised exceptions as `Except.error` values returned *together with* the
state reached at the point of the raise (Python exceptions do not roll
back prior mutations).  Kernel-facing side effects are recorded in a
trace of `KernelOp` values.
-/

namespace RpiGpio

deriving instance DecidableEq for Except

/-- Consumer identity used when requesting lines.  Modelled from the spec:
the constant `DOMAIN` is imported from the integration package, whose file
is not part of the sources; the spec calls it "this system's reserved
consumer identity".  Its concrete value is irrelevant to every property
below, which only compare consumer names for equality. -/
def DOMAIN : String := "rpi_gpio"

/-- Mirrors `gpiod.line.Direction`. -/
inductive Direction | AS_IS | INPUT | OUTPUT
deriving Repr, DecidableEq

/-- Mirrors `gpiod.line.Value`. -/
inductive Value | INACTIVE | ACTIVE
deriving Repr, DecidableEq

/-- Mirrors `gpiod.line.Bias`. -/
inductive Bias | AS_IS | UNKNOWN | DISABLED | PULL_UP | PULL_DOWN
deriving Repr, DecidableEq

/-- Mirrors `gpiod.line.Drive`. -/
inductive Drive | PUSH_PULL | OPEN_DRAIN | OPEN_SOURCE
deriving Repr, DecidableEq

/-- Mirrors `gpiod.line.Edge`. -/
inductive Edge | NONE | RISING | FALLING | BOTH
deriving Repr, DecidableEq

/-- Mirrors `gpiod.line.Clock`. -/
inductive Clock | MONOTONIC | REALTIME | HTE
deriving Repr, DecidableEq

/-- The `BIAS` lookup table (a Python dict keyed by the config string);
a missing key raises `KeyError`, modelled by `none`. -/
def BIAS : String → Option Bias
  | "UP" => some Bias.PULL_UP
  | "DOWN" => some Bias.PULL_DOWN
  | "DISABLED" => some Bias.DISABLED
  | "AS_IS" => some Bias.AS_IS
  | _ => none

/-- The `DRIVE` lookup table. -/
def DRIVE : String → Option Drive
  | "OPEN_DRAIN" => some Drive.OPEN_DRAIN
  | "OPEN_SOURCE" => some Drive.OPEN_SOURCE
  | "PUSH_PULL" => some Drive.PUSH_PULL
  | _ => none

/-- Mirrors `gpiod.LineSettings`; default field values are gpiod's defaults,
used for fields a call site leaves unset (the transient request in
`add_sensor` passes an empty settings dict). -/
structure LineSettings where
  direction : Direction := Direction.AS_IS
  edge_detection : Edge := Edge.NONE
  bias : Bias := Bias.AS_IS
  drive : Drive := Drive.PUSH_PULL
  active_low : Bool := false
  debounce_period_ms : Nat := 0
  event_clock : Clock := Clock.MONOTONIC
  output_value : Value := Value.INACTIVE
deriving Repr, DecidableEq

/-- An entity (consumer) as the hub sees it: an identity plus the
`is_on` boolean the hub reads and writes.  Entities are modelled by
value; object identity is the `eid` field. -/
structure Entity where
  eid : Nat
  is_on : Bool
deriving Repr, DecidableEq, Inhabited

/-- Result of `chip.get_line_info(port)`: the fields the hub reads. -/
structure LineInfo where
  used : Bool
  consumer : String
deriving Repr, DecidableEq

/-- An open (or closed) `gpiod.Chip` handle. -/
structure Chip where
  path : String
  closed : Bool
deriving Repr, DecidableEq

/-- A `gpiod.LineRequest` (session): its grant and the output values
written through it.  `released` makes the object falsy, matching the
bindings where `release()` clears the internal request and `__bool__`
tests it. -/
structure LineRequest where
  consumer : Option String
  config : List (Nat × LineSettings)
  released : Bool
  values : List (Nat × Value)
deriving Repr, DecidableEq

/-- A buffered `gpiod.EdgeEvent` as the dispatcher consumes it. -/
structure EdgeEvent where
  line_offset : Nat
  rising : Bool
deriving Repr, DecidableEq

/-- Python exceptions the embedded code can raise. -/
inductive PyError
  | homeAssistantError (msg : String)
  | keyError
  | attributeError
  | chipClosedError
  | requestReleasedError
  | valueError
deriving Repr, DecidableEq

/-- Kernel-facing side effects, recorded in order. -/
inductive KernelOp
  | openChip (path : String)
  | closeChip (path : String)
  | requestLines (consumer : Option String) (offsets : List Nat)
  | releaseRequest (offsets : List Nat)
  | getValue (port : Nat)
  | setValue (port : Nat) (v : Value)
  | notify (eid : Nat) (offset : Nat)
  | clearConfig
deriving Repr, DecidableEq

/-- Read-only environment: what the kernel reports for each probe or
query.  `physicalValue` is the value returned by `get_value` on a line
requested with default settings (no inversion). -/
structure World where
  isGpiochipDevice : String → Bool
  chipLabel : String → String
  lineInfo : Nat → LineInfo
  physicalValue : Nat → Value

/-- The mutable state of a `Hub` object.  `_chip = none` models the
attribute never having been assigned (only the bare annotation on line
37 exists then, so reading it raises `AttributeError`). -/
structure Hub where
  _path : String
  _chip : Option Chip
  _online : Bool
  _lines : Option LineRequest
  _config : List (Nat × LineSettings)
  _edge_events : Bool
  _entities : List (Nat × Entity)
deriving Repr, DecidableEq

/-- Python dict assignment `d[k] = v`: overwrite in place, else append
(insertion order is preserved). -/
def dictInsert {α : Type} (d : List (Nat × α)) (k : Nat) (v : α) : List (Nat × α) :=
  match d with
  | [] => [(k, v)]
  | (k', v') :: rest => if k' = k then (k, v) :: rest else (k', v') :: dictInsert rest k v

/-- Python dict lookup `d[k]` returning `none` where Python raises `KeyError`. -/
def dictLookup {α : Type} (d : List (Nat × α)) (k : Nat) : Option α :=
  match d with
  | [] => none
  | (k', v') :: rest => if k' = k then some v' else dictLookup rest k

/-- Keys of a dict, in insertion order (`dict` iteration order). -/
def dictKeys {α : Type} (d : List (Nat × α)) : List Nat := d.map Prod.fst

/-- The substring test `"pinctrl" in info.label`. -/
def hasPinctrl (label : String) : Bool :=
  decide ("pinctrl".toList <:+: label.toList)

/-- Source `Hub.verify_online` (lines 72-75): raise `HomeAssistantError` when
the online flag is down. -/
def verify_online (h : Hub) : Except PyError Unit :=
  if h._online then Except.ok ()
  else Except.error (PyError.homeAssistantError "No gpio device detected")

/-- Evaluates `self._chip.get_line_info(port)`: `AttributeError` if `_chip` was
never assigned, `ChipClosedError` on a closed handle. -/
def chipGetLineInfo (w : World) (h : Hub) (port : Nat) : Except PyError LineInfo :=
  match h._chip with
  | none => Except.error PyError.attributeError
  | some c =>
      if c.closed then Except.error PyError.chipClosedError
      else Except.ok (w.lineInfo port)

/-- Source `Hub.verify_port_ready` (lines 92-97): raise `HomeAssistantError`
naming the holder when the line is used by a foreign consumer. -/
def verify_port_ready (w : World) (h : Hub) (port : Nat) : Except PyError Unit :=
  match chipGetLineInfo w h port with
  | Except.error e => Except.error e
  | Except.ok info =>
      if info.used && !(info.consumer == DOMAIN) then
        Except.error (PyError.homeAssistantError
          ("Port " ++ toString port ++ " already in use by " ++ info.consumer))
      else Except.ok ()

/-- Source `Hub.verify_gpiochip` (lines 77-90): returns the boolean result, the
state reached, and the trace.  The chip handle is opened and stored
before the label check; no previous handle is ever closed. -/
def verify_gpiochip (w : World) (h : Hub) (path : String) :
    Bool × Hub × List KernelOp :=
  if !(w.isGpiochipDevice path) then (false, h, [])
  else
    let h1 : Hub := { h with _chip := some { path := path, closed := false } }
    if !(hasPinctrl (w.chipLabel path)) then (false, h1, [KernelOp.openChip path])
    else (true, h1, [KernelOp.openChip path])

/-- The auto-discovery loop of `Hub.__init__` (lines 56-62): probe the
candidate paths in order, stop at the first that validates, marking the
hub online and recording the path. -/
def discover (w : World) (h : Hub) : List String → Hub × List KernelOp
  | [] => (h, [])
  | p :: rest =>
      let r := verify_gpiochip w h p
      if r.1 then ({ r.2.1 with _online := true, _path := p }, r.2.2)
      else
        let r' := discover w r.2.1 rest
        (r'.1, r.2.2 ++ r'.2)

/-- The fixed candidate list of the discovery loop (line 56). -/
def candidatePaths : List String :=
  ["/dev/gpiochip0", "/dev/gpiochip4", "/dev/gpiochip1",
   "/dev/gpiochip2", "/dev/gpiochip3", "/dev/gpiochip5"]

/-- The guarded release `if self._lines: self._lines.release()`
(lines 128-129 and 140-141): a released request is falsy, so this is a
no-op when no live session exists. -/
def releaseLines (h : Hub) : Hub × List KernelOp :=
  match h._lines with
  | none => (h, [])
  | some req =>
      if req.released then (h, [])
      else ({ h with _lines := some { req with released := true } },
            [KernelOp.releaseRequest (dictKeys req.config)])

/-- Source `Hub.update_lines` (lines 139-148): guarded release, then a single
new request with consumer `DOMAIN` covering the full registry. -/
def update_lines (h : Hub) : Except PyError Unit × Hub × List KernelOp :=
  let r := releaseLines h
  let h1 := r.1
  match h1._chip with
  | none => (Except.error PyError.attributeError, h1, r.2)
  | some c =>
      if c.closed then (Except.error PyError.chipClosedError, h1, r.2)
      else
        let req : LineRequest :=
          { consumer := some DOMAIN, config := h1._config, released := false, values := [] }
        (Except.ok (), { h1 with _lines := some req },
         r.2 ++ [KernelOp.requestLines (some DOMAIN) (dictKeys h1._config)])

/-- Source `Hub.cleanup` (lines 123-132): clear the config dict if non-empty,
release the session if live, close the chip if open, then drop the
online flag.  Reading a never-assigned `_chip` raises `AttributeError`
(the earlier mutations persist). -/
def cleanup (h : Hub) : Except PyError Unit × Hub × List KernelOp :=
  let step1 : Hub × List KernelOp :=
    if h._config.isEmpty then (h, [])
    else ({ h with _config := [] }, [KernelOp.clearConfig])
  let step2 := releaseLines step1.1
  let h2 := step2.1
  let t := step1.2 ++ step2.2
  match h2._chip with
  | none => (Except.error PyError.attributeError, h2, t)
  | some c =>
      if c.closed then (Except.ok (), { h2 with _online := false }, t)
      else (Except.ok (),
            { h2 with _chip := some { c with closed := true }, _online := false },
            t ++ [KernelOp.closeChip c.path])

/-- Models `LineRequest.set_value(port, v)`. -/
def reqSetValue (req : LineRequest) (port : Nat) (v : Value) :
    Except PyError LineRequest :=
  if req.released then Except.error PyError.requestReleasedError
  else
    match dictLookup req.config port with
    | none => Except.error PyError.valueError
    | some _ => Except.ok { req with values := dictInsert req.values port v }

/-- Models `LineRequest.get_value(port)`: for an output line the driven value,
for an input (or as-is) line the physical value inverted by the
request's `active_low` setting. -/
def reqGetValue (w : World) (req : LineRequest) (port : Nat) :
    Except PyError Value :=
  if req.released then Except.error PyError.requestReleasedError
  else
    match dictLookup req.config port with
    | none => Except.error PyError.valueError
    | some s =>
        match s.direction with
        | Direction.OUTPUT =>
            Except.ok (match dictLookup req.values port with
              | some v => v
              | none => s.output_value)
        | _ =>
            Except.ok
              (if xor (w.physicalValue port == Value.ACTIVE) s.active_low
               then Value.ACTIVE else Value.INACTIVE)

/-- Source `Hub.turn_on` (lines 169-172). -/
def turn_on (h : Hub) (port : Nat) : Except PyError Unit × Hub × List KernelOp :=
  match verify_online h with
  | Except.error e => (Except.error e, h, [])
  | Except.ok _ =>
      match h._lines with
      | none => (Except.error PyError.attributeError, h, [])
      | some req =>
          match reqSetValue req port Value.ACTIVE with
          | Except.error e => (Except.error e, h, [])
          | Except.ok req' =>
              (Except.ok (), { h with _lines := some req' },
               [KernelOp.setValue port Value.ACTIVE])

/-- Source `Hub.turn_off` (lines 174-177). -/
def turn_off (h : Hub) (port : Nat) : Except PyError Unit × Hub × List KernelOp :=
  match verify_online h with
  | Except.error e => (Except.error e, h, [])
  | Except.ok _ =>
      match h._lines with
      | none => (Except.error PyError.attributeError, h, [])
      | some req =>
          match reqSetValue req port Value.INACTIVE with
          | Except.error e => (Except.error e, h, [])
          | Except.ok req' =>
              (Except.ok (), { h with _lines := some req' },
               [KernelOp.setValue port Value.INACTIVE])

/-- Source `Hub.get_line_value` (lines 203-204): note there is no
`verify_online` call; with no session the attribute is `None` and the
method call raises `AttributeError`. -/
def get_line_value (w : World) (h : Hub) (port : Nat) :
    Except PyError Bool × List KernelOp :=
  match h._lines with
  | none => (Except.error PyError.attributeError, [])
  | some req =>
      match reqGetValue w req port with
      | Except.error e => (Except.error e, [])
      | Except.ok v => (Except.ok (v == Value.ACTIVE), [KernelOp.getValue port])

/-- The loop body of `Hub.handle_events`: dispatch each buffered event in
delivery order to `self._entities[event.line_offset].handle_event()`.
A missing registry entry raises `KeyError`; notifications already made
persist in the trace. -/
def dispatchEvents (entities : List (Nat × Entity)) :
    List EdgeEvent → Except PyError Unit × List KernelOp
  | [] => (Except.ok (), [])
  | e :: rest =>
      match dictLookup entities e.line_offset with
      | none => (Except.error PyError.keyError, [])
      | some ent =>
          let r := dispatchEvents entities rest
          (r.1, KernelOp.notify ent.eid e.line_offset :: r.2)

/-- Source `Hub.handle_events` (lines 150-153), with the kernel's buffered
events supplied as input (`read_edge_events` drains them). -/
def handle_events (h : Hub) (events : List EdgeEvent) :
    Except PyError Unit × List KernelOp :=
  match h._lines with
  | none => (Except.error PyError.attributeError, [])
  | some req =>
      if req.released then (Except.error PyError.requestReleasedError, [])
      else dispatchEvents h._entities events

/-- Source `Hub.add_switch` (lines 155-167): validate online and port-free,
record the entity, record an OUTPUT config whose initial value is ACTIVE
exactly when `init_output_value` and the entity's `is_on` both hold.
The entity assignment precedes the settings construction, so a bad
bias or drive key leaves the entity recorded but not the config. -/
def add_switch (w : World) (h : Hub) (entity : Entity) (port : Nat)
    (active_low : Bool) (bias : String) (drive_mode : String)
    (init_output_value : Bool) : Except PyError Unit × Hub × List KernelOp :=
  match verify_online h with
  | Except.error e => (Except.error e, h, [])
  | Except.ok _ =>
      match verify_port_ready w h port with
      | Except.error e => (Except.error e, h, [])
      | Except.ok _ =>
          let h1 : Hub := { h with _entities := dictInsert h._entities port entity }
          match BIAS bias, DRIVE drive_mode with
          | some b, some d =>
              let s : LineSettings :=
                { direction := Direction.OUTPUT
                  bias := b
                  drive := d
                  active_low := active_low
                  output_value :=
                    if init_output_value && entity.is_on then Value.ACTIVE
                    else Value.INACTIVE }
              (Except.ok (), { h1 with _config := dictInsert h1._config port s }, [])
          | _, _ => (Except.error PyError.keyError, h1, [])

/-- Source `Hub.add_sensor` (lines 179-201): validate, read the current value
through a transient single-line request with default settings, set the
entity's `is_on` to value XOR active_low, release the transient request,
then record the updated entity and an INPUT/BOTH-edge config. -/
def add_sensor (w : World) (h : Hub) (entity : Entity) (port : Nat)
    (active_low : Bool) (bias : String) (debounce : Nat) :
    Except PyError Unit × Hub × List KernelOp :=
  match verify_online h with
  | Except.error e => (Except.error e, h, [])
  | Except.ok _ =>
      match verify_port_ready w h port with
      | Except.error e => (Except.error e, h, [])
      | Except.ok _ =>
          match h._chip with
          | none => (Except.error PyError.attributeError, h, [])
          | some c =>
              if c.closed then (Except.error PyError.chipClosedError, h, [])
              else
                let value : Bool := w.physicalValue port == Value.ACTIVE
                let ent1 : Entity := { entity with is_on := xor value active_low }
                let t0 : List KernelOp :=
                  [KernelOp.requestLines none [port], KernelOp.getValue port,
                   KernelOp.releaseRequest [port]]
                let h1 : Hub := { h with _entities := dictInsert h._entities port ent1 }
                match BIAS bias with
                | some b =>
                    let s : LineSettings :=
                      { direction := Direction.INPUT
                        edge_detection := Edge.BOTH
                        bias := b
                        active_low := active_low
                        debounce_period_ms := debounce
                        event_clock := Clock.REALTIME
                        output_value :=
                          if ent1.is_on then Value.ACTIVE else Value.INACTIVE }
                    (Except.ok (),
                     { h1 with _config := dictInsert h1._config port s,
                               _edge_events := true }, t0)
                | none => (Except.error PyError.keyError, h1, t0)

/-- Source `Hub.add_cover` (lines 206-210): add-switch for the relay line with
`init_output_value = False`, then add-sensor for the state line with a
50 ms debounce, for the same entity. -/
def add_cover (w : World) (h : Hub) (entity : Entity)
    (relay_port : Nat) (relay_active_low : Bool) (relay_bias : String)
    (relay_drive : String) (state_port : Nat) (state_bias : String)
    (state_active_low : Bool) : Except PyError Unit × Hub × List KernelOp :=
  let r := add_switch w h entity relay_port relay_active_low relay_bias
             relay_drive false
  match r.1 with
  | Except.error e => (Except.error e, r.2.1, r.2.2)
  | Except.ok _ =>
      let r' := add_sensor w r.2.1 entity state_port state_active_low
                  state_bias 50
      (r'.1, r'.2.1, r.2.2 ++ r'.2.2)


/-! ## Concrete fixtures used to exercise the definitions -/

/-- A sample environment: gpiochip0 is a GPIO character device without a
pin-control label, gpiochip4 is the valid pin-control chip; line 9 is
held by the foreign consumer "other"; line 6 is physically active. -/
def wEx : World :=
  { isGpiochipDevice := fun p => p == "/dev/gpiochip0" || p == "/dev/gpiochip4"
    chipLabel := fun p => if p == "/dev/gpiochip4" then "pinctrl-rp1" else "somechip"
    lineInfo := fun n =>
      if n == 9 then { used := true, consumer := "other" }
      else { used := false, consumer := "" }
    physicalValue := fun n => if n == 6 then Value.ACTIVE else Value.INACTIVE }

/-- An open chip handle for the valid device. -/
def chipEx : Chip := { path := "/dev/gpiochip4", closed := false }

/-- An online hub with an open chip, empty registry, and no session. -/
def hubEx : Hub :=
  { _path := "/dev/gpiochip4", _chip := some chipEx, _online := true, _lines := none,
    _config := [], _edge_events := false, _entities := [] }

/-- A hub whose constructor found no device: offline, the `_chip`
attribute never assigned, no session. -/
def hubBare : Hub :=
  { _path := "", _chip := none, _online := false, _lines := none,
    _config := [], _edge_events := false, _entities := [] }

/-- A sample entity. -/
def entEx : Entity := { eid := 1, is_on := true }

/-! ## Dictionary lemmas -/

theorem dictLookup_insert_self {α : Type} (d : List (Nat × α)) (k : Nat) (v : α) :
    dictLookup (dictInsert d k v) k = some v := by
  induction d with
  | nil => simp [dictInsert, dictLookup]
  | cons hd tl ih =>
      obtain ⟨k', v'⟩ := hd
      by_cases hk : k' = k
      · simp [dictInsert, dictLookup, hk]
      · simp [dictInsert, dictLookup, hk, ih]

theorem dictLookup_insert_ne {α : Type} (d : List (Nat × α)) (k k' : Nat) (v : α)
    (hne : k ≠ k') : dictLookup (dictInsert d k v) k' = dictLookup d k' := by
  induction d with
  | nil => simp [dictInsert, dictLookup, hne]
  | cons hd tl ih =>
      obtain ⟨k0, v0⟩ := hd
      by_cases hk : k0 = k
      · subst hk
        simp [dictInsert, dictLookup, hne]
      · simp only [dictInsert, if_neg hk, dictLookup]
        by_cases hk' : k0 = k'
        · simp [hk']
        · simp [hk', ih]

theorem length_dictInsert_of_lookup_none {α : Type} (d : List (Nat × α)) (k : Nat) (v : α)
    (hnone : dictLookup d k = none) : (dictInsert d k v).length = d.length + 1 := by
  induction d with
  | nil => simp [dictInsert]
  | cons hd tl ih =>
      obtain ⟨k0, v0⟩ := hd
      by_cases hk : k0 = k
      · simp [dictLookup, hk] at hnone
      · simp only [dictLookup, if_neg hk] at hnone
        simp [dictInsert, if_neg hk, ih hnone]

/-! ## Characterisation of the successful add operations -/

/-- Result of a successful `add_switch` call: the entity and an OUTPUT
config are recorded, nothing else changes and no kernel operation runs. -/
theorem add_switch_eq_of_ok (w : World) (h : Hub) (c : Chip) (ent : Entity)
    (port : Nat) (al : Bool) (bias drive : String) (iov : Bool)
    (b : Bias) (d : Drive)
    (hon : h._online = true) (hchip : h._chip = some c) (hopen : c.closed = false)
    (hready : (w.lineInfo port).used = false ∨ (w.lineInfo port).consumer = DOMAIN)
    (hbias : BIAS bias = some b) (hdrive : DRIVE drive = some d) :
    add_switch w h ent port al bias drive iov =
      (Except.ok (),
       { h with
         _entities := dictInsert h._entities port ent
         _config := dictInsert h._config port
           { direction := Direction.OUTPUT, bias := b, drive := d, active_low := al,
             output_value :=
               if iov && ent.is_on then Value.ACTIVE else Value.INACTIVE } },
       []) := by
  have hvo : verify_online h = Except.ok () := by
    simp [verify_online, hon]
  have hvp : verify_port_ready w h port = Except.ok () := by
    unfold verify_port_ready chipGetLineInfo
    rw [hchip]
    simp only [hopen, Bool.false_eq_true, if_false]
    rcases hready with h1 | h1
    · simp [h1]
    · simp [h1]
  unfold add_switch
  rw [hvo, hvp, hbias, hdrive]

/-- Result of a successful `add_sensor` call: the transient read happens
(request, one sample, release), the entity is stored with
`is_on = physical XOR active_low`, and an INPUT/BOTH-edge config with the
requested debounce is recorded. -/
theorem add_sensor_eq_of_ok (w : World) (h : Hub) (c : Chip) (ent : Entity)
    (port : Nat) (al : Bool) (bias : String) (db : Nat) (b : Bias)
    (hon : h._online = true) (hchip : h._chip = some c) (hopen : c.closed = false)
    (hready : (w.lineInfo port).used = false ∨ (w.lineInfo port).consumer = DOMAIN)
    (hbias : BIAS bias = some b) :
    add_sensor w h ent port al bias db =
      (Except.ok (),
       { h with
         _entities := dictInsert h._entities port
           { ent with is_on := xor (w.physicalValue port == Value.ACTIVE) al }
         _config := dictInsert h._config port
           { direction := Direction.INPUT, edge_detection := Edge.BOTH, bias := b,
             active_low := al, debounce_period_ms := db, event_clock := Clock.REALTIME,
             output_value :=
               if xor (w.physicalValue port == Value.ACTIVE) al then Value.ACTIVE
               else Value.INACTIVE }
         _edge_events := true },
       [KernelOp.requestLines none [port], KernelOp.getValue port,
        KernelOp.releaseRequest [port]]) := by
  have hvo : verify_online h = Except.ok () := by
    simp [verify_online, hon]
  have hvp : verify_port_ready w h port = Except.ok () := by
    unfold verify_port_ready chipGetLineInfo
    rw [hchip]
    simp only [hopen, Bool.false_eq_true, if_false]
    rcases hready with h1 | h1
    · simp [h1]
    · simp [h1]
  unfold add_sensor
  rw [hvo, hvp, hchip, hbias]
  simp [hopen]

/-! ## Claim C1: do the add operations trigger a session rebuild? -/

/-- True on the trace entries that request a persistent session (a
request carrying a consumer name); the transient read of `add_sensor`
requests without one. -/
def isSessionRequest : KernelOp → Bool
  | KernelOp.requestLines (some _) _ => true
  | _ => false

/-- C1 counterexample: a successful `add_switch` call on an online hub
records the line but performs no kernel operation at all and leaves the
hub with no session — no release/re-request happens as part of the add,
contradicting the claim that every successful add triggers a rebuild. -/
theorem C1_no_rebuild_on_add_counterexample :
    (add_switch wEx hubEx entEx 5 false "UP" "PUSH_PULL" true).1 = Except.ok () ∧
    (add_switch wEx hubEx entEx 5 false "UP" "PUSH_PULL" true).2.1._lines = none ∧
    (add_switch wEx hubEx entEx 5 false "UP" "PUSH_PULL" true).2.2 = [] ∧
    (add_sensor wEx hubEx entEx 6 false "UP" 10).1 = Except.ok () ∧
    (add_sensor wEx hubEx entEx 6 false "UP" 10).2.1._lines = none ∧
    List.all (add_sensor wEx hubEx entEx 6 false "UP" 10).2.2
      (fun op => !(isSessionRequest op)) = true := by
  decide

/-- C1 amended: the add operations only record the line's configuration
and consumer; they never touch the session (`_lines` is unchanged and no
session request appears in their traces).  The rebuild — release of any
existing session followed by one request covering the full registry —
is performed separately by `update_lines`, which the hub invokes at host
startup. -/
theorem C1_adds_record_rebuild_in_update_lines :
    (∀ w h ent port al bias drive iov,
       (add_switch w h ent port al bias drive iov).2.1._lines = h._lines ∧
       (add_switch w h ent port al bias drive iov).2.2 = []) ∧
    (∀ w h ent port al bias db,
       (add_sensor w h ent port al bias db).2.1._lines = h._lines ∧
       List.all (add_sensor w h ent port al bias db).2.2
         (fun op => !(isSessionRequest op)) = true) ∧
    (∀ h req c, h._lines = some req → req.released = false →
       h._chip = some c → c.closed = false →
       update_lines h =
         (Except.ok (),
          { h with _lines := some {
              consumer := some DOMAIN, config := h._config,
              released := false, values := [] } },
          [KernelOp.releaseRequest (dictKeys req.config),
           KernelOp.requestLines (some DOMAIN) (dictKeys h._config)])) := by
  refine ⟨?_, ?_, ?_⟩
  · intro w h ent port al bias drive iov
    unfold add_switch
    repeat' split
    all_goals exact ⟨rfl, rfl⟩
  · intro w h ent port al bias db
    unfold add_sensor
    repeat' split
    all_goals exact ⟨rfl, rfl⟩
  · intro h req c hlr hlive hchip hopen
    have hrel : releaseLines h =
        ({ h with _lines := some { req with released := true } },
         [KernelOp.releaseRequest (dictKeys req.config)]) := by
      unfold releaseLines
      rw [hlr]
      simp [hlive]
    unfold update_lines
    rw [hrel]
    simp [hchip, hopen]

/-- A live single-line session fixture. -/
def reqC1 : LineRequest :=
  { consumer := some DOMAIN, config := [(5, { direction := Direction.OUTPUT })],
    released := false, values := [] }

/-- The online hub holding that session. -/
def hubC1 : Hub := { hubEx with _lines := some reqC1 }

/-- C1 amended witness: the rebuild equation of `update_lines` at a
concrete hub holding a live single-line session. -/
theorem C1_adds_record_rebuild_in_update_lines_witness :
    update_lines hubC1 =
      (Except.ok (),
       { hubC1 with _lines := some {
           consumer := some DOMAIN, config := [], released := false, values := [] } },
       [KernelOp.releaseRequest [5], KernelOp.requestLines (some DOMAIN) []]) :=
  C1_adds_record_rebuild_in_update_lines.2.2 hubC1 reqC1 chipEx rfl rfl rfl rfl

/-! ## Claim C2: foreign-held offsets are rejected without mutation -/

/-- C2: attempting to register an offset whose line is in use by a
consumer other than `DOMAIN` makes both add operations raise a
`HomeAssistantError` naming the holder; the hub state (config map and
entity map included) is returned unchanged and no kernel operation —
in particular no session rebuild — occurs. -/
theorem C2_foreign_holder_add_fails (w : World) (h : Hub) (c : Chip) (ent : Entity)
    (port : Nat) (al : Bool) (bias drive : String) (iov : Bool) (db : Nat)
    (hon : h._online = true) (hchip : h._chip = some c) (hopen : c.closed = false)
    (hused : (w.lineInfo port).used = true)
    (hforeign : (w.lineInfo port).consumer ≠ DOMAIN) :
    add_switch w h ent port al bias drive iov =
      (Except.error (PyError.homeAssistantError
         ("Port " ++ toString port ++ " already in use by " ++ (w.lineInfo port).consumer)),
       h, []) ∧
    add_sensor w h ent port al bias db =
      (Except.error (PyError.homeAssistantError
         ("Port " ++ toString port ++ " already in use by " ++ (w.lineInfo port).consumer)),
       h, []) := by
  have hvo : verify_online h = Except.ok () := by
    simp [verify_online, hon]
  have hvp : verify_port_ready w h port =
      Except.error (PyError.homeAssistantError
        ("Port " ++ toString port ++ " already in use by " ++ (w.lineInfo port).consumer)) := by
    unfold verify_port_ready chipGetLineInfo
    rw [hchip]
    simp [hopen, hused, hforeign]
  constructor
  · unfold add_switch
    rw [hvo, hvp]
  · unfold add_sensor
    rw [hvo, hvp]

/-- C2 witness: line 9 of the sample environment is held by "other". -/
theorem C2_foreign_holder_add_fails_witness :
    add_switch wEx hubEx entEx 9 false "UP" "PUSH_PULL" true =
      (Except.error (PyError.homeAssistantError
         ("Port " ++ toString 9 ++ " already in use by " ++ (wEx.lineInfo 9).consumer)),
       hubEx, []) ∧
    add_sensor wEx hubEx entEx 9 false "UP" 10 =
      (Except.error (PyError.homeAssistantError
         ("Port " ++ toString 9 ++ " already in use by " ++ (wEx.lineInfo 9).consumer)),
       hubEx, []) :=
  C2_foreign_holder_add_fails wEx hubEx chipEx entEx 9 false "UP" "PUSH_PULL" true 10
    rfl rfl rfl (by decide) (by decide)

/-! ## Claim C3: the sensor initial read -/

/-- True exactly on the trace entry sampling the given port. -/
def isGetValue (port : Nat) : KernelOp → Bool
  | KernelOp.getValue p => p == port
  | _ => false

/-- C3: a successful `add_sensor` performs exactly the transient
sequence request/sample/release (so the value is read exactly once, and
no persistent session request occurs during the add), and the entity is
recorded in the registry with `is_on = physicalValue XOR activeLow`,
together with its INPUT configuration. -/
theorem C3_sensor_transient_initial_read (w : World) (h : Hub) (c : Chip) (ent : Entity)
    (port : Nat) (al : Bool) (bias : String) (db : Nat) (b : Bias)
    (hon : h._online = true) (hchip : h._chip = some c) (hopen : c.closed = false)
    (hready : (w.lineInfo port).used = false ∨ (w.lineInfo port).consumer = DOMAIN)
    (hbias : BIAS bias = some b) :
    (add_sensor w h ent port al bias db).1 = Except.ok () ∧
    (add_sensor w h ent port al bias db).2.2 =
      [KernelOp.requestLines none [port], KernelOp.getValue port,
       KernelOp.releaseRequest [port]] ∧
    List.countP (isGetValue port) (add_sensor w h ent port al bias db).2.2 = 1 ∧
    List.all (add_sensor w h ent port al bias db).2.2
      (fun op => !(isSessionRequest op)) = true ∧
    dictLookup (add_sensor w h ent port al bias db).2.1._entities port =
      some { ent with is_on := xor (w.physicalValue port == Value.ACTIVE) al } ∧
    dictLookup (add_sensor w h ent port al bias db).2.1._config port =
      some { direction := Direction.INPUT, edge_detection := Edge.BOTH, bias := b,
             active_low := al, debounce_period_ms := db, event_clock := Clock.REALTIME,
             output_value :=
               if xor (w.physicalValue port == Value.ACTIVE) al then Value.ACTIVE
               else Value.INACTIVE } := by
  have he := add_sensor_eq_of_ok w h c ent port al bias db b hon hchip hopen hready hbias
  rw [he]
  refine ⟨rfl, rfl, ?_, rfl, ?_, ?_⟩
  · simp [List.countP_cons, isGetValue]
  · exact dictLookup_insert_self _ _ _
  · exact dictLookup_insert_self _ _ _

/-- C3 witness: adding a sensor on line 6 (physically active) with
active_low set stores `is_on = false` and samples the line once. -/
theorem C3_sensor_transient_initial_read_witness :
    (add_sensor wEx hubEx entEx 6 true "DOWN" 25).1 = Except.ok () ∧
    (add_sensor wEx hubEx entEx 6 true "DOWN" 25).2.2 =
      [KernelOp.requestLines none [6], KernelOp.getValue 6,
       KernelOp.releaseRequest [6]] ∧
    List.countP (isGetValue 6) (add_sensor wEx hubEx entEx 6 true "DOWN" 25).2.2 = 1 ∧
    List.all (add_sensor wEx hubEx entEx 6 true "DOWN" 25).2.2
      (fun op => !(isSessionRequest op)) = true ∧
    dictLookup (add_sensor wEx hubEx entEx 6 true "DOWN" 25).2.1._entities 6 =
      some { entEx with is_on := xor (wEx.physicalValue 6 == Value.ACTIVE) true } ∧
    dictLookup (add_sensor wEx hubEx entEx 6 true "DOWN" 25).2.1._config 6 =
      some { direction := Direction.INPUT, edge_detection := Edge.BOTH, bias := Bias.PULL_DOWN,
             active_low := true, debounce_period_ms := 25, event_clock := Clock.REALTIME,
             output_value :=
               if xor (wEx.physicalValue 6 == Value.ACTIVE) true then Value.ACTIVE
               else Value.INACTIVE } :=
  C3_sensor_transient_initial_read wEx hubEx chipEx entEx 6 true "DOWN" 25 Bias.PULL_DOWN
    rfl rfl rfl (Or.inl (by decide)) rfl

/-! ## Claim C4: online checks on the value operations -/

/-- C4 counterexample: on a hub whose chip was never located (offline,
no session), `turn_on` does fail with the not-online error, but
`get_line_value` raises `AttributeError` instead — it performs no online
check at all. -/
theorem C4_get_value_no_online_check_counterexample :
    (turn_on hubBare 5).1 =
      Except.error (PyError.homeAssistantError "No gpio device detected") ∧
    (get_line_value wEx hubBare 5).1 = Except.error PyError.attributeError ∧
    (get_line_value wEx hubBare 5).1 ≠
      Except.error (PyError.homeAssistantError "No gpio device detected") := by
  decide

/-- C4 amended: `turn_on`/`turn_off` require the subsystem online and
fail with the not-online `HomeAssistantError` otherwise; `get_line_value`
performs no online check and fails with `AttributeError` when no session
object exists; with a live session whose grant covers the offset,
`turn_on`/`turn_off` write the logical ACTIVE/INACTIVE value and
`get_line_value` reads the logical value through the current session. -/
theorem C4_value_ops_online_and_session :
    (∀ h port, h._online = false →
       turn_on h port =
         (Except.error (PyError.homeAssistantError "No gpio device detected"), h, []) ∧
       turn_off h port =
         (Except.error (PyError.homeAssistantError "No gpio device detected"), h, [])) ∧
    (∀ w h port, h._lines = none →
       get_line_value w h port = (Except.error PyError.attributeError, [])) ∧
    (∀ h req port s, h._online = true → h._lines = some req →
       req.released = false → dictLookup req.config port = some s →
       turn_on h port =
         (Except.ok (),
          { h with _lines := some { req with values := dictInsert req.values port Value.ACTIVE } },
          [KernelOp.setValue port Value.ACTIVE]) ∧
       turn_off h port =
         (Except.ok (),
          { h with _lines := some { req with values := dictInsert req.values port Value.INACTIVE } },
          [KernelOp.setValue port Value.INACTIVE])) ∧
    (∀ w h req port s, h._lines = some req →
       req.released = false → dictLookup req.config port = some s →
       ∃ v, reqGetValue w req port = Except.ok v ∧
         get_line_value w h port = (Except.ok (v == Value.ACTIVE), [KernelOp.getValue port])) := by
  refine ⟨?_, ?_, ?_, ?_⟩
  · intro h port hoff
    have hvo : verify_online h =
        Except.error (PyError.homeAssistantError "No gpio device detected") := by
      simp [verify_online, hoff]
    constructor
    · unfold turn_on
      rw [hvo]
    · unfold turn_off
      rw [hvo]
  · intro w h port hnone
    unfold get_line_value
    rw [hnone]
  · intro h req port s hon hreq hlive hconf
    have hvo : verify_online h = Except.ok () := by
      simp [verify_online, hon]
    have hset : ∀ v, reqSetValue req port v =
        Except.ok { req with values := dictInsert req.values port v } := by
      intro v
      unfold reqSetValue
      rw [hconf]
      simp [hlive]
    constructor
    · unfold turn_on
      rw [hvo, hreq]
      simp only [hset]
    · unfold turn_off
      rw [hvo, hreq]
      simp only [hset]
  · intro w h req port s hreq hlive hconf
    have hok : ∃ v, reqGetValue w req port = Except.ok v := by
      unfold reqGetValue
      rw [hconf]
      simp only [hlive, Bool.false_eq_true, if_false]
      cases s.direction <;> exact ⟨_, rfl⟩
    obtain ⟨v, hv⟩ := hok
    refine ⟨v, hv, ?_⟩
    unfold get_line_value
    rw [hreq]
    simp only [hv]

/-- A live session fixture covering line 6 as an input. -/
def reqC4 : LineRequest :=
  { consumer := some DOMAIN
    config := [(6, { direction := Direction.INPUT, edge_detection := Edge.BOTH })]
    released := false, values := [] }

/-- The online hub holding that session. -/
def hubC4 : Hub := { hubEx with _lines := some reqC4 }

/-- C4 amended witness: the three behaviours at concrete states. -/
theorem C4_value_ops_online_and_session_witness :
    (turn_on hubBare 6 =
       (Except.error (PyError.homeAssistantError "No gpio device detected"), hubBare, []) ∧
     turn_off hubBare 6 =
       (Except.error (PyError.homeAssistantError "No gpio device detected"), hubBare, [])) ∧
    get_line_value wEx hubBare 6 = (Except.error PyError.attributeError, []) ∧
    turn_on hubC4 6 =
      (Except.ok (),
       { hubC4 with _lines := some { reqC4 with values := dictInsert reqC4.values 6 Value.ACTIVE } },
       [KernelOp.setValue 6 Value.ACTIVE]) ∧
    ∃ v, reqGetValue wEx reqC4 6 = Except.ok v ∧
      get_line_value wEx hubC4 6 = (Except.ok (v == Value.ACTIVE), [KernelOp.getValue 6]) :=
  ⟨C4_value_ops_online_and_session.1 hubBare 6 rfl,
   C4_value_ops_online_and_session.2.1 wEx hubBare 6 rfl,
   (C4_value_ops_online_and_session.2.2.1 hubC4 reqC4 6
      { direction := Direction.INPUT, edge_detection := Edge.BOTH } rfl rfl rfl rfl).1,
   C4_value_ops_online_and_session.2.2.2 wEx hubC4 reqC4 6
     { direction := Direction.INPUT, edge_detection := Edge.BOTH } rfl rfl rfl⟩

/-! ## Claims C5 and C6: event dispatch -/

/-- Identity of the consumer registered for an offset (0 when none is,
a case the dispatch lemmas exclude or handle explicitly). -/
def ownerId (entities : List (Nat × Entity)) (o : Nat) : Nat :=
  match dictLookup entities o with
  | some e => e.eid
  | none => 0

theorem dispatchEvents_all_registered (entities : List (Nat × Entity))
    (events : List EdgeEvent)
    (hall : ∀ e ∈ events, (dictLookup entities e.line_offset).isSome = true) :
    dispatchEvents entities events =
      (Except.ok (),
       events.map (fun e => KernelOp.notify (ownerId entities e.line_offset) e.line_offset)) := by
  induction events with
  | nil => rfl
  | cons e rest ih =>
      have he : (dictLookup entities e.line_offset).isSome = true :=
        hall e (List.mem_cons_self e rest)
      obtain ⟨ent, hent⟩ := Option.isSome_iff_exists.mp he
      unfold dispatchEvents
      rw [hent, ih (fun x hx => hall x (List.mem_cons_of_mem e hx))]
      simp [ownerId, hent]

/-- C5: when every buffered event's offset is registered, one readiness
wake dispatches exactly one notification per event, in kernel delivery
order, each routed to the entity registered for the event's offset. -/
theorem C5_events_dispatched_in_order (h : Hub) (req : LineRequest)
    (events : List EdgeEvent)
    (hreq : h._lines = some req) (hlive : req.released = false)
    (hall : ∀ e ∈ events, (dictLookup h._entities e.line_offset).isSome = true) :
    handle_events h events =
      (Except.ok (),
       events.map (fun e => KernelOp.notify (ownerId h._entities e.line_offset) e.line_offset)) ∧
    (handle_events h events).2.length = events.length := by
  have hd := dispatchEvents_all_registered h._entities events hall
  have hh : handle_events h events =
      (Except.ok (),
       events.map (fun e => KernelOp.notify (ownerId h._entities e.line_offset) e.line_offset)) := by
    unfold handle_events
    rw [hreq]
    simp [hlive, hd]
  exact ⟨hh, by rw [hh]; simp⟩

/-- A second sample entity. -/
def entB : Entity := { eid := 7, is_on := false }

/-- An input line-settings fixture. -/
def sIn : LineSettings := { direction := Direction.INPUT, edge_detection := Edge.BOTH }

/-- A live session covering input lines 1 and 2. -/
def reqC5 : LineRequest :=
  { consumer := some DOMAIN, config := [(1, sIn), (2, sIn)],
    released := false, values := [] }

/-- A hub with entities registered on offsets 1 and 2. -/
def hubC5 : Hub :=
  { hubEx with _lines := some reqC5, _config := [(1, sIn), (2, sIn)],
               _edge_events := true, _entities := [(1, entEx), (2, entB)] }

/-- The buffered events of the C5 witness. -/
def evC5 : List EdgeEvent :=
  [{ line_offset := 2, rising := true }, { line_offset := 1, rising := false },
   { line_offset := 2, rising := false }]

/-- C5 witness: three buffered events on lines 2, 1, 2 produce exactly
three notifications in that order, routed by offset. -/
theorem C5_events_dispatched_in_order_witness :
    handle_events hubC5 evC5 =
      (Except.ok (),
       evC5.map (fun e => KernelOp.notify (ownerId hubC5._entities e.line_offset) e.line_offset)) ∧
    (handle_events hubC5 evC5).2.length = evC5.length :=
  C5_events_dispatched_in_order hubC5 reqC5 evC5 rfl rfl (by decide)

/-- C6 counterexample: with only offset 1 registered, a wake delivering
an event on the unregistered offset 2 followed by one on the registered
offset 1 makes the dispatcher raise `KeyError` with zero notifications —
it neither skips the bad event nor processes the remaining one. -/
theorem C6_unregistered_offset_crashes_counterexample :
    handle_events { hubC5 with _entities := [(1, entEx)] }
      [{ line_offset := 2, rising := true }, { line_offset := 1, rising := true }] =
      (Except.error PyError.keyError, ([] : List KernelOp)) := by
  decide

theorem dispatchEvents_stops_at_unregistered (entities : List (Nat × Entity))
    (pre : List EdgeEvent) (e : EdgeEvent) (rest : List EdgeEvent)
    (hpre : ∀ x ∈ pre, (dictLookup entities x.line_offset).isSome = true)
    (hbad : dictLookup entities e.line_offset = none) :
    dispatchEvents entities (pre ++ e :: rest) =
      (Except.error PyError.keyError,
       pre.map (fun x => KernelOp.notify (ownerId entities x.line_offset) x.line_offset)) := by
  induction pre with
  | nil =>
      simp only [List.nil_append, List.map_nil]
      unfold dispatchEvents
      rw [hbad]
  | cons x xs ih =>
      have hx : (dictLookup entities x.line_offset).isSome = true :=
        hpre x (List.mem_cons_self x xs)
      obtain ⟨ent, hent⟩ := Option.isSome_iff_exists.mp hx
      have ih' := ih (fun y hy => hpre y (List.mem_cons_of_mem x hy))
      simp only [List.cons_append]
      unfold dispatchEvents
      rw [hent, ih']
      simp [ownerId, hent]

/-- C6 amended: when a wake delivers an event whose offset has no
registry entry, the dispatcher raises `KeyError` on it: the events
delivered before it have already been dispatched (in order), while the
offending event and every later one in that wake go undispatched —
the loop aborts instead of logging and skipping. -/
theorem C6_unregistered_offset_aborts_dispatch (h : Hub) (req : LineRequest)
    (pre : List EdgeEvent) (e : EdgeEvent) (rest : List EdgeEvent)
    (hreq : h._lines = some req) (hlive : req.released = false)
    (hpre : ∀ x ∈ pre, (dictLookup h._entities x.line_offset).isSome = true)
    (hbad : dictLookup h._entities e.line_offset = none) :
    handle_events h (pre ++ e :: rest) =
      (Except.error PyError.keyError,
       pre.map (fun x => KernelOp.notify (ownerId h._entities x.line_offset) x.line_offset)) := by
  have hd := dispatchEvents_stops_at_unregistered h._entities pre e rest hpre hbad
  unfold handle_events
  rw [hreq]
  simp [hlive, hd]

/-- The event lists of the C6 witness. -/
def evPre : List EdgeEvent := [{ line_offset := 1, rising := true }]

/-- The unregistered event of the C6 witness. -/
def evBad : EdgeEvent := { line_offset := 2, rising := true }

/-- The trailing registered events of the C6 witness. -/
def evRest : List EdgeEvent := [{ line_offset := 1, rising := false }]

/-- C6 amended witness: one registered event is dispatched, then the
unregistered offset 2 aborts the wake, leaving the trailing registered
event undispatched. -/
theorem C6_unregistered_offset_aborts_dispatch_witness :
    handle_events { hubC5 with _entities := [(1, entEx)] } (evPre ++ evBad :: evRest) =
      (Except.error PyError.keyError,
       evPre.map (fun x => KernelOp.notify (ownerId [(1, entEx)] x.line_offset) x.line_offset)) :=
  C6_unregistered_offset_aborts_dispatch { hubC5 with _entities := [(1, entEx)] } reqC5
    evPre evBad evRest rfl rfl (by decide) (by decide)

/-! ## Claim C7: the cover add registers exactly two lines -/

/-- C7: a successful `add_cover` with distinct free offsets r (relay)
and s (state) creates exactly two registry entries: r as an OUTPUT line
whose initial value is INACTIVE regardless of the entity's `is_on`, and
s as an INPUT line with BOTH-edge detection and 50 ms debounce, both
entries owned by the same consumer (same entity identity). -/
theorem C7_cover_registers_two_lines (w : World) (h : Hub) (c : Chip) (ent : Entity)
    (r s : Nat) (ral sal : Bool) (rbias rdrive sbias : String)
    (rb sb : Bias) (rd : Drive)
    (hon : h._online = true) (hchip : h._chip = some c) (hopen : c.closed = false)
    (hne : r ≠ s)
    (hrready : (w.lineInfo r).used = false ∨ (w.lineInfo r).consumer = DOMAIN)
    (hsready : (w.lineInfo s).used = false ∨ (w.lineInfo s).consumer = DOMAIN)
    (hrb : BIAS rbias = some rb) (hrd : DRIVE rdrive = some rd)
    (hsb : BIAS sbias = some sb)
    (hrconf : dictLookup h._config r = none) (hsconf : dictLookup h._config s = none) :
    (add_cover w h ent r ral rbias rdrive s sbias sal).1 = Except.ok () ∧
    dictLookup (add_cover w h ent r ral rbias rdrive s sbias sal).2.1._config r =
      some { direction := Direction.OUTPUT, bias := rb, drive := rd, active_low := ral,
             output_value := Value.INACTIVE } ∧
    dictLookup (add_cover w h ent r ral rbias rdrive s sbias sal).2.1._config s =
      some { direction := Direction.INPUT, edge_detection := Edge.BOTH, bias := sb,
             active_low := sal, debounce_period_ms := 50, event_clock := Clock.REALTIME,
             output_value :=
               if xor (w.physicalValue s == Value.ACTIVE) sal then Value.ACTIVE
               else Value.INACTIVE } ∧
    Option.map Entity.eid
      (dictLookup (add_cover w h ent r ral rbias rdrive s sbias sal).2.1._entities r) =
      some ent.eid ∧
    Option.map Entity.eid
      (dictLookup (add_cover w h ent r ral rbias rdrive s sbias sal).2.1._entities s) =
      some ent.eid ∧
    (add_cover w h ent r ral rbias rdrive s sbias sal).2.1._config.length =
      h._config.length + 2 := by
  have hsw := add_switch_eq_of_ok w h c ent r ral rbias rdrive false rb rd
    hon hchip hopen hrready hrb hrd
  have hsen := add_sensor_eq_of_ok w
    { h with _entities := dictInsert h._entities r ent
             _config := dictInsert h._config r
               { direction := Direction.OUTPUT, bias := rb, drive := rd, active_low := ral,
                 output_value :=
                   if false && ent.is_on then Value.ACTIVE else Value.INACTIVE } }
    c ent s sal sbias 50 sb hon hchip hopen hsready hsb
  have hfull : add_cover w h ent r ral rbias rdrive s sbias sal =
      (Except.ok (),
       { h with
         _entities := dictInsert (dictInsert h._entities r ent) s
           { ent with is_on := xor (w.physicalValue s == Value.ACTIVE) sal }
         _config := dictInsert
           (dictInsert h._config r
             { direction := Direction.OUTPUT, bias := rb, drive := rd, active_low := ral,
               output_value :=
                 if false && ent.is_on then Value.ACTIVE else Value.INACTIVE }) s
           { direction := Direction.INPUT, edge_detection := Edge.BOTH, bias := sb,
             active_low := sal, debounce_period_ms := 50, event_clock := Clock.REALTIME,
             output_value :=
               if xor (w.physicalValue s == Value.ACTIVE) sal then Value.ACTIVE
               else Value.INACTIVE }
         _edge_events := true },
       [KernelOp.requestLines none [s], KernelOp.getValue s,
        KernelOp.releaseRequest [s]]) := by
    unfold add_cover
    rw [hsw]
    simp only [hsen, List.nil_append]
  have hne' : s ≠ r := Ne.symm hne
  have hsconf' : dictLookup
      (dictInsert h._config r
        { direction := Direction.OUTPUT, bias := rb, drive := rd, active_low := ral,
          output_value :=
            if false && ent.is_on then Value.ACTIVE else Value.INACTIVE }) s = none := by
    rw [dictLookup_insert_ne _ _ _ _ hne]
    exact hsconf
  refine ⟨?_, ?_, ?_, ?_, ?_, ?_⟩
  · rw [hfull]
  · rw [hfull]
    simp only []
    rw [dictLookup_insert_ne _ _ _ _ hne', dictLookup_insert_self]
    rfl
  · rw [hfull]
    simp only []
    rw [dictLookup_insert_self]
  · rw [hfull]
    simp only []
    rw [dictLookup_insert_ne _ _ _ _ hne', dictLookup_insert_self]
    rfl
  · rw [hfull]
    simp only []
    rw [dictLookup_insert_self]
    rfl
  · rw [hfull]
    simp only []
    rw [length_dictInsert_of_lookup_none _ _ _ hsconf',
        length_dictInsert_of_lookup_none _ _ _ hrconf]

/-- C7 witness: a cover on relay line 5 and state line 6 of the sample
environment, with an entity that is currently on (so the relay's forced
INACTIVE initial value is visibly independent of `is_on`). -/
theorem C7_cover_registers_two_lines_witness :
    (add_cover wEx hubEx entEx 5 false "UP" "PUSH_PULL" 6 "DOWN" false).1 = Except.ok () ∧
    dictLookup (add_cover wEx hubEx entEx 5 false "UP" "PUSH_PULL" 6 "DOWN" false).2.1._config 5 =
      some { direction := Direction.OUTPUT, bias := Bias.PULL_UP, drive := Drive.PUSH_PULL,
             active_low := false, output_value := Value.INACTIVE } ∧
    dictLookup (add_cover wEx hubEx entEx 5 false "UP" "PUSH_PULL" 6 "DOWN" false).2.1._config 6 =
      some { direction := Direction.INPUT, edge_detection := Edge.BOTH, bias := Bias.PULL_DOWN,
             active_low := false, debounce_period_ms := 50, event_clock := Clock.REALTIME,
             output_value :=
               if xor (wEx.physicalValue 6 == Value.ACTIVE) false then Value.ACTIVE
               else Value.INACTIVE } ∧
    Option.map Entity.eid
      (dictLookup (add_cover wEx hubEx entEx 5 false "UP" "PUSH_PULL" 6 "DOWN" false).2.1._entities 5) =
      some entEx.eid ∧
    Option.map Entity.eid
      (dictLookup (add_cover wEx hubEx entEx 5 false "UP" "PUSH_PULL" 6 "DOWN" false).2.1._entities 6) =
      some entEx.eid ∧
    (add_cover wEx hubEx entEx 5 false "UP" "PUSH_PULL" 6 "DOWN" false).2.1._config.length =
      hubEx._config.length + 2 :=
  C7_cover_registers_two_lines wEx hubEx chipEx entEx 5 6 false false "UP" "PUSH_PULL" "DOWN"
    Bias.PULL_UP Bias.PULL_DOWN Drive.PUSH_PULL rfl rfl rfl (by decide)
    (Or.inl (by decide)) (Or.inl (by decide)) rfl rfl rfl rfl rfl

/-! ## Claim C8: teardown order -/

/-- C8 counterexample: on a hub with a non-empty registry, a live
session and an open chip, cleanup's trace clears the registry FIRST and
only then releases the session and closes the chip — not the
release-clear-close order the claim states. -/
theorem C8_cleanup_order_counterexample :
    (cleanup hubC5).2.2 =
      [KernelOp.clearConfig, KernelOp.releaseRequest [1, 2],
       KernelOp.closeChip "/dev/gpiochip4"] ∧
    (cleanup hubC5).2.2 ≠
      [KernelOp.releaseRequest [1, 2], KernelOp.clearConfig,
       KernelOp.closeChip "/dev/gpiochip4"] := by
  decide

/-- C8 amended: cleanup performs its three effects in the order: clear
the registry, then release the session (implicitly deregistering the
event descriptor), then close the chip handle, finally dropping the
online flag. -/
theorem C8_cleanup_clears_then_releases_then_closes (h : Hub) (req : LineRequest) (c : Chip)
    (hconf : h._config.isEmpty = false) (hreq : h._lines = some req)
    (hlive : req.released = false) (hchip : h._chip = some c) (hopen : c.closed = false) :
    cleanup h =
      (Except.ok (),
       { h with _config := [], _lines := some { req with released := true },
                _chip := some { c with closed := true }, _online := false },
       [KernelOp.clearConfig, KernelOp.releaseRequest (dictKeys req.config),
        KernelOp.closeChip c.path]) := by
  obtain ⟨pth, ch, onl, ln, cf, ee, en⟩ := h
  have hreq' : ln = some req := hreq
  subst hreq'
  have hchip' : ch = some c := hchip
  subst hchip'
  obtain ⟨rc, rcf, rr, rv⟩ := req
  have hlive' : rr = false := hlive
  subst hlive'
  obtain ⟨cp, cc⟩ := c
  have hopen' : cc = false := hopen
  subst hopen'
  cases cf with
  | nil => simp at hconf
  | cons x xs => rfl

/-- C8 amended witness: the teardown equation at the concrete hub. -/
theorem C8_cleanup_clears_then_releases_then_closes_witness :
    cleanup hubC5 =
      (Except.ok (),
       { hubC5 with _config := [], _lines := some { reqC5 with released := true },
                    _chip := some { chipEx with closed := true }, _online := false },
       [KernelOp.clearConfig, KernelOp.releaseRequest (dictKeys reqC5.config),
        KernelOp.closeChip chipEx.path]) :=
  C8_cleanup_clears_then_releases_then_closes hubC5 reqC5 chipEx rfl rfl rfl rfl rfl

/-! ## Claim C9: idempotence and safety of release and cleanup -/

/-- C9 counterexample: on a never-initialized hub — the constructor
found no gpiochip device, so the `_chip` attribute was never assigned —
cleanup raises `AttributeError` instead of returning safely. -/
theorem C9_cleanup_never_initialized_raises_counterexample :
    (cleanup hubBare).1 = Except.error PyError.attributeError := by
  decide

/-- C9 amended: the guarded session release is idempotent (a no-op when
no session exists, and a second consecutive release is a no-op), and
cleanup succeeds — and is itself idempotent — from every state in which
the chip attribute has been assigned (online, with or without a live
session, or already cleaned up); but on a hub whose chip attribute was
never assigned, cleanup raises `AttributeError`. -/
theorem C9_release_idempotent_cleanup_needs_chip :
    (∀ h, h._lines = none → releaseLines h = (h, [])) ∧
    (∀ h, releaseLines (releaseLines h).1 = ((releaseLines h).1, [])) ∧
    (∀ h c, h._chip = some c →
       (cleanup h).1 = Except.ok () ∧ (cleanup (cleanup h).2.1).1 = Except.ok ()) ∧
    (∀ h, h._chip = none → (cleanup h).1 = Except.error PyError.attributeError) := by
  refine ⟨?_, ?_, ?_, ?_⟩
  · intro h hn
    unfold releaseLines
    rw [hn]
  · intro h
    obtain ⟨pth, ch, onl, ln, cf, ee, en⟩ := h
    cases ln with
    | none => rfl
    | some req =>
        obtain ⟨rc, rcf, rr, rv⟩ := req
        cases rr <;> rfl
  · intro h c hc
    obtain ⟨pth, ch, onl, ln, cf, ee, en⟩ := h
    obtain ⟨cp, cc⟩ := c
    have hc' : ch = some (Chip.mk cp cc) := hc
    subst hc'
    cases ln with
    | none => cases cc <;> cases cf <;> exact ⟨rfl, rfl⟩
    | some req =>
        obtain ⟨rc, rcf, rr, rv⟩ := req
        cases rr <;> cases cc <;> cases cf <;> exact ⟨rfl, rfl⟩
  · intro h hn
    obtain ⟨pth, ch, onl, ln, cf, ee, en⟩ := h
    have hn' : ch = none := hn
    subst hn'
    cases ln with
    | none => cases cf <;> rfl
    | some req =>
        obtain ⟨rc, rcf, rr, rv⟩ := req
        cases rr <;> cases cf <;> rfl

/-- C9 amended witness: the release no-op on the session-less hub, and
cleanup succeeding twice from the online state. -/
theorem C9_release_idempotent_cleanup_needs_chip_witness :
    releaseLines hubEx = (hubEx, []) ∧
    releaseLines (releaseLines hubC5).1 = ((releaseLines hubC5).1, []) ∧
    ((cleanup hubEx).1 = Except.ok () ∧ (cleanup (cleanup hubEx).2.1).1 = Except.ok ()) ∧
    (cleanup hubBare).1 = Except.error PyError.attributeError :=
  ⟨C9_release_idempotent_cleanup_needs_chip.1 hubEx rfl,
   C9_release_idempotent_cleanup_needs_chip.2.1 hubC5,
   C9_release_idempotent_cleanup_needs_chip.2.2.1 hubEx chipEx rfl,
   C9_release_idempotent_cleanup_needs_chip.2.2.2 hubBare rfl⟩

/-! ## Claim C10: chip-handle accumulation during discovery -/

/-- True on trace entries that close a chip handle. -/
def closesChip : KernelOp → Bool
  | KernelOp.closeChip _ => true
  | _ => false

/-- The validation predicate of `verify_gpiochip`: a gpiochip device
whose label carries the pin-control identifier. -/
def validates (w : World) (p : String) : Bool :=
  w.isGpiochipDevice p && hasPinctrl (w.chipLabel p)

/-- The candidates the discovery loop actually probes: everything up to
and including the first that validates. -/
def probedPaths (w : World) : List String → List String
  | [] => []
  | p :: rest => if validates w p then [p] else p :: probedPaths w rest

/-- The last gpiochip-capable path in a probe sequence. -/
def lastCapable (w : World) (ps : List String) : Option String :=
  (ps.filter w.isGpiochipDevice).getLast?

theorem getLast?_cons_getD {α : Type} (p : α) (xs : List α) :
    (p :: xs).getLast? = some (xs.getLast?.getD p) := by
  induction xs generalizing p with
  | nil => rfl
  | cons y ys ih =>
      rw [List.getLast?_cons_cons, ih y]
      rfl

theorem verify_gpiochip_stores_chip (w : World) (h : Hub) (p : String)
    (hg : w.isGpiochipDevice p = true) :
    (verify_gpiochip w h p).2.1._chip = some { path := p, closed := false } := by
  unfold verify_gpiochip
  rw [hg]
  by_cases hl : hasPinctrl (w.chipLabel p) <;> simp [hl]

theorem verify_gpiochip_no_close (w : World) (h : Hub) (p : String) :
    List.all (verify_gpiochip w h p).2.2 (fun op => !(closesChip op)) = true := by
  unfold verify_gpiochip
  by_cases hg : w.isGpiochipDevice p <;> by_cases hl : hasPinctrl (w.chipLabel p) <;>
    simp [hg, hl, closesChip]

theorem discover_chip_eq_lastCapable (w : World) (h : Hub) (ps : List String) :
    (discover w h ps).1._chip =
      (lastCapable w (probedPaths w ps)).elim h._chip
        (fun p => some { path := p, closed := false }) := by
  induction ps generalizing h with
  | nil => rfl
  | cons p rest ih =>
      by_cases hg : w.isGpiochipDevice p
      · by_cases hl : hasPinctrl (w.chipLabel p)
        · have hv : validates w p = true := by simp [validates, hg, hl]
          unfold discover verify_gpiochip
          simp [hg, hl, probedPaths, hv, lastCapable]
        · have hv : validates w p = false := by simp [validates, hl]
          unfold discover verify_gpiochip
          simp only [hg, hl, Bool.not_true, Bool.not_false, Bool.false_eq_true, if_false,
            if_true, ih, List.nil_append]
          simp only [probedPaths, hv, Bool.false_eq_true, if_false, lastCapable,
            List.filter_cons, hg, if_true]
          rw [getLast?_cons_getD]
          cases hlast : (List.filter w.isGpiochipDevice (probedPaths w rest)).getLast? <;>
            simp [hlast]
      · have hv : validates w p = false := by simp [validates, hg]
        unfold discover verify_gpiochip
        simp only [hg, Bool.not_false, if_true, Bool.false_eq_true, if_false,
          List.nil_append, ih]
        simp [probedPaths, hv, lastCapable, List.filter_cons, hg]

theorem discover_no_close (w : World) (h : Hub) (ps : List String) :
    List.all (discover w h ps).2 (fun op => !(closesChip op)) = true := by
  induction ps generalizing h with
  | nil => rfl
  | cons p rest ih =>
      have hvg := verify_gpiochip_no_close w h p
      unfold discover
      by_cases hr : (verify_gpiochip w h p).1 <;> simp [hr, hvg, ih]

/-- C10: during probing, once a path is a gpiochip device the hub's
chip-handle field is overwritten with a freshly opened handle before the
label check — also when validation then fails on the label — and no
probe ever closes a handle; hence after the discovery loop the hub's
chip handle refers to the last gpiochip-capable candidate probed
(probing stops at the first fully validated one), whether or not
validation succeeded. -/
theorem C10_probe_stores_last_capable_chip :
    (∀ w h p, w.isGpiochipDevice p = true →
       (verify_gpiochip w h p).2.1._chip = some { path := p, closed := false }) ∧
    (∀ w h p,
       List.all (verify_gpiochip w h p).2.2 (fun op => !(closesChip op)) = true) ∧
    (∀ w h ps,
       List.all (discover w h ps).2 (fun op => !(closesChip op)) = true) ∧
    (∀ w h ps, (discover w h ps).1._chip =
       (lastCapable w (probedPaths w ps)).elim h._chip
         (fun p => some { path := p, closed := false })) :=
  ⟨verify_gpiochip_stores_chip, verify_gpiochip_no_close, discover_no_close,
   discover_chip_eq_lastCapable⟩

/-- C10 witness: in the sample environment gpiochip0 is gpiochip-capable
but fails the label check, and the stored handle still points at it;
running discovery over the full candidate list ends with the handle on
gpiochip4, the last capable candidate probed, with no close in the trace. -/
theorem C10_probe_stores_last_capable_chip_witness :
    (verify_gpiochip wEx hubBare "/dev/gpiochip0").2.1._chip =
      some { path := "/dev/gpiochip0", closed := false } ∧
    (verify_gpiochip wEx hubBare "/dev/gpiochip0").1 = false ∧
    List.all (discover wEx hubBare candidatePaths).2 (fun op => !(closesChip op)) = true ∧
    (discover wEx hubBare candidatePaths).1._chip =
      some { path := "/dev/gpiochip4", closed := false } :=
  ⟨C10_probe_stores_last_capable_chip.1 wEx hubBare "/dev/gpiochip0" (by decide),
   by decide,
   C10_probe_stores_last_capable_chip.2.2.1 wEx hubBare candidatePaths,
   (C10_probe_stores_last_capable_chip.2.2.2 wEx hubBare candidatePaths).trans (by decide)⟩

end RpiGpio
